import Mathlib

/-!
Verification development for the `llm-council` backend.

The Python sources under `backend/` are shallowly embedded below:
Python `float` values are modelled as rationals (`ℚ`), Python `int`
as `ℤ`, dictionaries as association lists with first-match lookup,
`None`-able values as `Option`, and raising code as `Except`-valued
functions.  Asynchronous orchestration (`asyncio`) is modelled by an
explicit environment that records the outcome of every awaited step
and every cooperative disconnect check, in the order the code
performs them.
-/

set_option allowUnsafeReducibility true
attribute [local semireducible] Rat.mul Rat.inv Rat.add Rat.sub

namespace LLMCouncil

/-! ## Embedding of `backend/pricing.py` -/

/-- `DEFAULT_CHARS_PER_TOKEN = 4.0` from `pricing.py`. -/
def DEFAULT_CHARS_PER_TOKEN : ℚ := 4

/-- Python `dict.get(k, dflt)` on an association list of numeric
assumptions (first binding wins, as after a Python dict merge). -/
def pget (d : List (String × ℚ)) (k : String) (dflt : ℚ) : ℚ :=
  (d.lookup k).getD dflt

/-- Python `int(x)`: truncation toward zero. -/
def pyInt (q : ℚ) : ℤ :=
  if q < 0 then ⌈q⌉ else ⌊q⌋

/-- Python `max(a, b)` on numbers (an explicit `if`, kernel-reducible). -/
def pmax (a b : ℚ) : ℚ :=
  if a ≤ b then b else a

/-- `DEFAULT_ASSUMPTIONS` from `pricing.py` (9/10 = 0.9 etc.). -/
def DEFAULT_ASSUMPTIONS : List (String × ℚ) :=
  [("chars_per_token", DEFAULT_CHARS_PER_TOKEN),
   ("min_stage1_tokens", 512),
   ("min_stage2_tokens", 256),
   ("min_stage3_tokens", 256),
   ("stage1_output_ratio", 9/10),
   ("stage2_output_ratio", 35/100),
   ("stage3_output_ratio", 8/10)]

/-- `tokens_from_chars` from `pricing.py`:
`0` for non-positive counts, otherwise `ceil(char_count / max(chars_per_token, 1e-6))`. -/
def tokens_from_chars (char_count : ℤ) (chars_per_token : ℚ) : ℤ :=
  if char_count ≤ 0 then 0
  else ⌈(char_count : ℚ) / pmax chars_per_token (1/1000000)⌉

/-- One entry of the `MODEL_PRICING` table: the two per-million rates,
each possibly absent or `None` (modelled as `Option`). -/
structure PricingEntry where
  input_per_million : Option ℚ
  output_per_million : Option ℚ
deriving DecidableEq

/-- The dictionary returned by `estimate_model_cost`. -/
structure ModelCost where
  model : String
  input_tokens : ℚ
  output_tokens : ℚ
  input_rate_per_million : ℚ
  output_rate_per_million : ℚ
  cost_input : ℚ
  cost_output : ℚ
  cost_total : ℚ
  pricing_missing : Bool
deriving DecidableEq

/-- `estimate_model_cost` from `pricing.py`.  `pricing.get(model_id, {})`
is a lookup returning `none` for an unknown model; `.get(key, 0.0) or 0.0`
maps an absent or `None` rate to `0`. -/
def estimate_model_cost (model_id : String) (input_tokens output_tokens : ℚ)
    (pricing : List (String × PricingEntry)) : ModelCost :=
  let model_pricing := pricing.lookup model_id
  let input_rate : ℚ := match model_pricing with
    | none => 0
    | some e => e.input_per_million.getD 0
  let output_rate : ℚ := match model_pricing with
    | none => 0
    | some e => e.output_per_million.getD 0
  { model := model_id
    input_tokens := input_tokens
    output_tokens := output_tokens
    input_rate_per_million := input_rate
    output_rate_per_million := output_rate
    cost_input := input_tokens / 1000000 * input_rate
    cost_output := output_tokens / 1000000 * output_rate
    cost_total := input_tokens / 1000000 * input_rate + output_tokens / 1000000 * output_rate
    pricing_missing := decide (input_rate = 0 ∧ output_rate = 0) }

/-- `params = {**DEFAULT_ASSUMPTIONS, **(assumptions or {})}`: a supplied
binding shadows the default one under first-match lookup. -/
def councilParams (assumptions : Option (List (String × ℚ))) : List (String × ℚ) :=
  (assumptions.getD []) ++ DEFAULT_ASSUMPTIONS

/-- The nested dictionary returned by `estimate_council_cost`
(numeric content; the echoed `assumptions` dict is kept as `params`). -/
structure CouncilEstimate where
  char_count : ℤ
  base_tokens : ℚ
  params : List (String × ℚ)
  stage1_output_ratio : ℚ
  stage2_output_ratio : ℚ
  stage3_output_ratio : ℚ
  stage1_input_tokens_per_model : ℚ
  stage1_output_tokens_per_model : ℚ
  stage2_input_tokens_per_model : ℚ
  stage2_output_tokens_per_model : ℚ
  stage3_input_tokens : ℚ
  stage3_output_tokens : ℚ
  num_models : ℕ
  stage1_per_model : List ModelCost
  stage2_per_model : List ModelCost
  chairman : ModelCost
  stage1_cost_total : ℚ
  stage2_cost_total : ℚ
  stage3_cost_total : ℚ
  cost_total : ℚ
deriving DecidableEq

/-- `estimate_council_cost` from `pricing.py`, line for line.  The
"backward-compat" ratio reads are the nested `params.get` calls of
lines 62–64; stage token counts mirror lines 66–98 with Python `max`,
`ceil` and `int`. -/
def estimate_council_cost (total_chars : ℤ) (models : List String)
    (chairman_model : String) (pricing : List (String × PricingEntry))
    (assumptions : Option (List (String × ℚ))) : CouncilEstimate :=
  let params := councilParams assumptions
  let stage1_output_ratio := pget params "stage1_output_ratio"
    (pget params "stage1_output_multiplier" (9/10))
  let stage2_output_ratio := pget params "stage2_output_ratio"
    (pget params "stage2_output_multiplier" (35/100))
  let stage3_output_ratio := pget params "stage3_output_ratio"
    (pget params "stage3_output_multiplier" (8/10))
  let base_tokens0 : ℚ := (tokens_from_chars total_chars (pget params "chars_per_token" 0) : ℤ)
  let base_tokens : ℚ := pmax base_tokens0 (pget params "min_stage1_tokens" 0)
  let num_models := models.length
  let stage1_input_tokens_per_model := base_tokens
  let stage1_output_tokens_per_model : ℚ :=
    pmax ((⌈base_tokens * stage1_output_ratio⌉ : ℤ) : ℚ)
        ((pyInt (pget params "min_stage1_tokens" 0 * (1/2)) : ℤ) : ℚ)
  let stage1_total_output_tokens := stage1_output_tokens_per_model * num_models
  let stage2_input_tokens_per_model : ℚ :=
    pmax ((⌈base_tokens + stage1_total_output_tokens⌉ : ℤ) : ℚ)
        (pget params "min_stage2_tokens" 0)
  let stage2_output_tokens_per_model : ℚ :=
    pmax ((⌈base_tokens * stage2_output_ratio⌉ : ℤ) : ℚ)
        (pget params "min_stage2_tokens" 0)
  let stage2_total_output_tokens := stage2_output_tokens_per_model * num_models
  let stage3_input_tokens : ℚ :=
    pmax ((⌈base_tokens + stage1_total_output_tokens + stage2_total_output_tokens⌉ : ℤ) : ℚ)
        (pget params "min_stage3_tokens" 0)
  let stage3_output_tokens : ℚ :=
    pmax ((⌈base_tokens * stage3_output_ratio⌉ : ℤ) : ℚ)
        (pget params "min_stage3_tokens" 0)
  let stage1_estimates := models.map (fun m =>
    estimate_model_cost m stage1_input_tokens_per_model stage1_output_tokens_per_model pricing)
  let stage2_estimates := models.map (fun m =>
    estimate_model_cost m stage2_input_tokens_per_model stage2_output_tokens_per_model pricing)
  let chairman_estimate :=
    estimate_model_cost chairman_model stage3_input_tokens stage3_output_tokens pricing
  let stage1_total := (stage1_estimates.map (fun item => item.cost_total)).sum
  let stage2_total := (stage2_estimates.map (fun item => item.cost_total)).sum
  let stage3_total := chairman_estimate.cost_total
  { char_count := total_chars
    base_tokens := base_tokens
    params := params
    stage1_output_ratio := stage1_output_ratio
    stage2_output_ratio := stage2_output_ratio
    stage3_output_ratio := stage3_output_ratio
    stage1_input_tokens_per_model := stage1_input_tokens_per_model
    stage1_output_tokens_per_model := stage1_output_tokens_per_model
    stage2_input_tokens_per_model := stage2_input_tokens_per_model
    stage2_output_tokens_per_model := stage2_output_tokens_per_model
    stage3_input_tokens := stage3_input_tokens
    stage3_output_tokens := stage3_output_tokens
    num_models := num_models
    stage1_per_model := stage1_estimates
    stage2_per_model := stage2_estimates
    chairman := chairman_estimate
    stage1_cost_total := stage1_total
    stage2_cost_total := stage2_total
    stage3_cost_total := stage3_total
    cost_total := stage1_total + stage2_total + stage3_total }

/-! ## Embedding of `backend/config.py` -/

/-- `COUNCIL_MODELS` from `config.py`. -/
def COUNCIL_MODELS : List String :=
  ["openai/gpt-5.1", "google/gemini-3-pro-preview",
   "deepseek/deepseek-v3.2", "x-ai/grok-4"]

/-- `CHAIRMAN_MODEL` from `config.py`. -/
def CHAIRMAN_MODEL : String := "anthropic/claude-sonnet-4.5"

/-- `MODEL_PRICING` from `config.py` (USD per 1M tokens; 5/4 = 1.25 etc.). -/
def MODEL_PRICING : List (String × PricingEntry) :=
  [("openai/gpt-5.1", ⟨some (5/4), some 10⟩),
   ("google/gemini-3-pro-preview", ⟨some 2, some 12⟩),
   ("deepseek/deepseek-v3.2", ⟨some (1/4), some (19/50)⟩),
   ("x-ai/grok-4", ⟨some 3, some 15⟩),
   ("anthropic/claude-sonnet-4.5", ⟨some 3, some 15⟩)]

/-! ## Embedding of `backend/openrouter.py` -/

/-- The response dict built by `query_model` on success
(`{'content': ..., 'reasoning_details': ...}`, each possibly `None`). -/
structure Payload where
  content : Option String
  reasoning_details : Option String
deriving DecidableEq

/-- The HTTP response as `query_model` observes it: whether
`raise_for_status` raises (non-2xx status), and whether extracting
`data['choices'][0]['message']` from the JSON body succeeds
(`Except.error` = malformed payload raising `KeyError`/`IndexError`). -/
structure HttpResp where
  status_error : Bool
  parse : Except Unit Payload

/-- Everything the outside world decides for one `query_model` call:
whether `request.is_disconnected()` is already true, and what the
network delivers (`Except.error` = a raised network/timeout exception
from the HTTP client). -/
structure QueryEnv where
  disconnected : Bool
  net : Except Unit HttpResp

/-- The body of `query_model`'s `try` block (lines 36–56): any
`Except.error` is an exception flying toward the `except` clause. -/
def query_model_body (env : QueryEnv) : Except Unit (Option Payload) :=
  if env.disconnected then Except.ok none
  else
    match env.net with
    | Except.error e => Except.error e
    | Except.ok response =>
      if response.status_error then Except.error ()
      else
        match response.parse with
        | Except.error e => Except.error e
        | Except.ok message => Except.ok (some message)

/-- `query_model` from `openrouter.py`: the `try` body with the
catch-all `except` clause of lines 58–60 mapping every exception to
`None`. -/
def query_model (env : QueryEnv) : Option Payload :=
  match query_model_body env with
  | Except.ok r => r
  | Except.error _ => none

/-- Outcome of one gathered task in `query_models_parallel`:
`asyncio.gather(..., return_exceptions=True)` hands back either the
task's return value (`query_model`'s `Option` result) or the raised
exception object itself. -/
inductive GatherOut where
  | resp : Option Payload → GatherOut
  | exc : GatherOut
deriving DecidableEq

/-- The value the loop of lines 89–94 stores for a member: an
exception is replaced by `None`, a returned value is stored as is. -/
def gatherValue : GatherOut → Option Payload
  | GatherOut.exc => none
  | GatherOut.resp r => r

/-- Python dict assignment `result[model] = v` on an insertion-ordered
dict: overwrite in place when the key exists, append otherwise. -/
def dictInsert (d : List (String × Option Payload)) (k : String) (v : Option Payload) :
    List (String × Option Payload) :=
  if d.any (fun p => p.1 == k) then
    d.map (fun p => if p.1 == k then (k, v) else p)
  else d ++ [(k, v)]

/-- `query_models_parallel` from `openrouter.py`: one task per model
(in list order), `gather` with `return_exceptions=True`, then the
result dict built by the `zip` loop of lines 88–94. -/
def query_models_parallel (models : List String) (outcome : String → GatherOut) :
    List (String × Option Payload) :=
  let responses := models.map outcome
  (models.zip responses).foldl
    (fun result mr =>
      match mr.2 with
      | GatherOut.exc => dictInsert result mr.1 none
      | GatherOut.resp r => dictInsert result mr.1 r) []

/-! ## Embedding of the streaming round (`event_generator` in `backend/main.py`) -/

/-- What one awaited step of `event_generator` does: return normally,
raise an ordinary `Exception`, or raise `asyncio.CancelledError`. -/
inductive Outcome where
  | ok
  | exn
  | cancelled
deriving DecidableEq, Fintype

/-- The typed events yielded by `event_generator`; `stage2_complete`
records whether its payload carries the aggregate-ranking metadata
(`label_to_model` and `aggregate_rankings`). -/
inductive Ev where
  | stage1_start
  | stage1_complete
  | stage2_start
  | stage2_complete (withAggregate : Bool)
  | stage3_start
  | stage3_complete
  | title_complete
  | complete
  | error
deriving DecidableEq

/-- The outside world of one `event_generator` run, in program order:
the four `request.is_disconnected()` checks (lines 460, 478, 490, 503),
whether this is the conversation's first message, and the outcome of
each awaited effectful step. -/
structure StreamEnv where
  discStart : Bool
  addUser : Outcome
  isFirst : Bool
  discS1 : Bool
  stage1 : Outcome
  discS2 : Bool
  stage2 : Outcome
  discS3 : Bool
  stage3 : Outcome
  titleAwait : Outcome
  addAssistant : Outcome
deriving DecidableEq

/-- What one `event_generator` run produced: the yielded events, the
Gateway calls issued (the title task counts as one, issued at
creation), and which Conversation Store writes happened. -/
structure GenOut where
  events : List Ev
  gatewayCalls : List String
  userWrite : Bool
  titleWrite : Bool
  assistantWrite : Bool
deriving DecidableEq

/-- `event_generator` from `backend/main.py` (lines 457–536): the
control flow of the `try` block, with `except asyncio.CancelledError`
returning silently and the catch-all `except` yielding one final
`error` event. -/
def event_generator (env : StreamEnv) : GenOut :=
  if env.discStart then
    ⟨[], [], false, false, false⟩
  else
    match env.addUser with
    | Outcome.cancelled => ⟨[], [], false, false, false⟩
    | Outcome.exn => ⟨[Ev.error], [], false, false, false⟩
    | Outcome.ok =>
      let gw0 := if env.isFirst then ["title"] else []
      if env.discS1 then ⟨[], gw0, true, false, false⟩
      else
        let gw1 := gw0 ++ ["stage1"]
        match env.stage1 with
        | Outcome.cancelled => ⟨[Ev.stage1_start], gw1, true, false, false⟩
        | Outcome.exn => ⟨[Ev.stage1_start, Ev.error], gw1, true, false, false⟩
        | Outcome.ok =>
          if env.discS2 then
            ⟨[Ev.stage1_start, Ev.stage1_complete], gw1, true, false, false⟩
          else
            let gw2 := gw1 ++ ["stage2"]
            match env.stage2 with
            | Outcome.cancelled =>
              ⟨[Ev.stage1_start, Ev.stage1_complete, Ev.stage2_start], gw2, true, false, false⟩
            | Outcome.exn =>
              ⟨[Ev.stage1_start, Ev.stage1_complete, Ev.stage2_start, Ev.error], gw2,
               true, false, false⟩
            | Outcome.ok =>
              if env.discS3 then
                ⟨[Ev.stage1_start, Ev.stage1_complete, Ev.stage2_start,
                  Ev.stage2_complete true], gw2, true, false, false⟩
              else
                let gw3 := gw2 ++ ["stage3"]
                match env.stage3 with
                | Outcome.cancelled =>
                  ⟨[Ev.stage1_start, Ev.stage1_complete, Ev.stage2_start,
                    Ev.stage2_complete true, Ev.stage3_start], gw3, true, false, false⟩
                | Outcome.exn =>
                  ⟨[Ev.stage1_start, Ev.stage1_complete, Ev.stage2_start,
                    Ev.stage2_complete true, Ev.stage3_start, Ev.error], gw3,
                   true, false, false⟩
                | Outcome.ok =>
                  if env.isFirst then
                    match env.titleAwait with
                    | Outcome.cancelled =>
                      ⟨[Ev.stage1_start, Ev.stage1_complete, Ev.stage2_start,
                        Ev.stage2_complete true, Ev.stage3_start, Ev.stage3_complete],
                       gw3, true, false, false⟩
                    | Outcome.exn =>
                      ⟨[Ev.stage1_start, Ev.stage1_complete, Ev.stage2_start,
                        Ev.stage2_complete true, Ev.stage3_start, Ev.stage3_complete,
                        Ev.error], gw3, true, false, false⟩
                    | Outcome.ok =>
                      match env.addAssistant with
                      | Outcome.cancelled =>
                        ⟨[Ev.stage1_start, Ev.stage1_complete, Ev.stage2_start,
                          Ev.stage2_complete true, Ev.stage3_start, Ev.stage3_complete,
                          Ev.title_complete], gw3, true, true, false⟩
                      | Outcome.exn =>
                        ⟨[Ev.stage1_start, Ev.stage1_complete, Ev.stage2_start,
                          Ev.stage2_complete true, Ev.stage3_start, Ev.stage3_complete,
                          Ev.title_complete, Ev.error], gw3, true, true, false⟩
                      | Outcome.ok =>
                        ⟨[Ev.stage1_start, Ev.stage1_complete, Ev.stage2_start,
                          Ev.stage2_complete true, Ev.stage3_start, Ev.stage3_complete,
                          Ev.title_complete, Ev.complete], gw3, true, true, true⟩
                  else
                    match env.addAssistant with
                    | Outcome.cancelled =>
                      ⟨[Ev.stage1_start, Ev.stage1_complete, Ev.stage2_start,
                        Ev.stage2_complete true, Ev.stage3_start, Ev.stage3_complete],
                       gw3, true, false, false⟩
                    | Outcome.exn =>
                      ⟨[Ev.stage1_start, Ev.stage1_complete, Ev.stage2_start,
                        Ev.stage2_complete true, Ev.stage3_start, Ev.stage3_complete,
                        Ev.error], gw3, true, false, false⟩
                    | Outcome.ok =>
                      ⟨[Ev.stage1_start, Ev.stage1_complete, Ev.stage2_start,
                        Ev.stage2_complete true, Ev.stage3_start, Ev.stage3_complete,
                        Ev.complete], gw3, true, false, true⟩

/-- The canonical full event sequence of a first-message round; every
run's non-error events form a prefix of it, or the same sequence with
`title_complete` removed (no first message). -/
def canonicalEvents : List Ev :=
  [Ev.stage1_start, Ev.stage1_complete, Ev.stage2_start, Ev.stage2_complete true,
   Ev.stage3_start, Ev.stage3_complete, Ev.title_complete, Ev.complete]

/-- The full event sequence of a non-first-message round. -/
def canonicalEventsNoTitle : List Ev :=
  [Ev.stage1_start, Ev.stage1_complete, Ev.stage2_start, Ev.stage2_complete true,
   Ev.stage3_start, Ev.stage3_complete, Ev.complete]

/-- Decidable check of the stream-order contract: after stripping one
trailing `error` event (if any), what remains is error-free and is a
prefix of the canonical order (or the complete no-title sequence). -/
def orderOk (l : List Ev) : Bool :=
  let core := if l.getLast? == some Ev.error then l.dropLast else l
  (core.isPrefixOf canonicalEvents || core == canonicalEventsNoTitle)
    && core.all (fun e => e != Ev.error)

/-! ## Aggregation Engine, modelled from the spec

`backend/main.py` imports `calculate_aggregate_rankings` (and the stage
helpers) from `backend/council.py`, a module that is not among the
available sources, so the Aggregation Engine is modelled from spec
§4.4: positional (reciprocal-rank) scores per mentioned label, summed
per member through the label-to-member mapping, sorted descending with
ties broken by Stage-1 dispatch order, unmentioned members scoring the
minimum. -/

/-- A list paired with positions starting at `n` (dispatch order). -/
def enumFrom (n : ℕ) : List String → List (ℕ × String)
  | [] => []
  | a :: t => (n, a) :: enumFrom (n + 1) t

/-- Modelled from the spec: one member's Stage-2 ranking — the ranking
member and its ordered Label sequence, best first. -/
structure Ranking where
  member : String
  labels : List String
deriving DecidableEq

/-- Modelled from the spec: the reciprocal-rank score one ranking's
label sequence contributes to member `m` (position `i`, counted from
0, contributes `1/(i+1)` when the label de-anonymizes to `m`). -/
def labelScore (labels : List String) (l2m : List (String × String)) (m : String) : ℚ :=
  ((enumFrom 0 labels).map
    (fun p => if l2m.lookup p.2 == some m then 1 / ((p.1 : ℚ) + 1) else 0)).sum

/-- Modelled from the spec: member `m`'s total score over all rankings. -/
def memberScore (rankings : List Ranking) (l2m : List (String × String)) (m : String) : ℚ :=
  (rankings.map (fun r => labelScore r.labels l2m m)).sum

/-- Whether any ranking mentions member `m` through the label mapping. -/
def mentioned (rankings : List Ranking) (l2m : List (String × String)) (m : String) : Bool :=
  rankings.any (fun r => r.labels.any (fun lab => l2m.lookup lab == some m))

/-- The sort order on (dispatch position, member) pairs: strictly
higher score first, ties broken by earlier dispatch position. -/
def aggRel (score : String → ℚ) (p q : ℕ × String) : Prop :=
  score q.2 < score p.2 ∨ (score p.2 = score q.2 ∧ p.1 ≤ q.1)

instance (score : String → ℚ) : DecidableRel (aggRel score) := fun p q =>
  inferInstanceAs (Decidable (_ ∨ _))

/-- Modelled from the spec: `calculate_aggregate_rankings` — the
members (in Stage-1 dispatch order) sorted by descending aggregate
score with dispatch-order tie-break, each paired with its score. -/
def calculate_aggregate_rankings (rankings : List Ranking)
    (l2m : List (String × String)) (members : List String) : List (String × ℚ) :=
  let score := memberScore rankings l2m
  (List.insertionSort (aggRel score) (enumFrom 0 members)).map (fun p => (p.2, score p.2))

/-! ## Abbreviations used to state properties of the cost estimator -/

/-- The divisor `tokens_from_chars` really divides by:
`max(chars_per_token, 1e-6)` for the merged parameters. -/
def cptDivisor (a : Option (List (String × ℚ))) : ℚ :=
  pmax (pget (councilParams a) "chars_per_token" 0) (1/1000000)

/-- The stage-1 output ratio as `estimate_council_cost` reads it. -/
def ratio1 (a : Option (List (String × ℚ))) : ℚ :=
  pget (councilParams a) "stage1_output_ratio"
    (pget (councilParams a) "stage1_output_multiplier" (9/10))

/-- The stage-2 output ratio as `estimate_council_cost` reads it. -/
def ratio2 (a : Option (List (String × ℚ))) : ℚ :=
  pget (councilParams a) "stage2_output_ratio"
    (pget (councilParams a) "stage2_output_multiplier" (35/100))

/-- The stage-3 output ratio as `estimate_council_cost` reads it. -/
def ratio3 (a : Option (List (String × ℚ))) : ℚ :=
  pget (councilParams a) "stage3_output_ratio"
    (pget (councilParams a) "stage3_output_multiplier" (8/10))

/-- A minimum-token parameter as `estimate_council_cost` reads it. -/
def minTok (a : Option (List (String × ℚ))) (k : String) : ℚ :=
  pget (councilParams a) k 0

/-- A per-model cost record with every token and cost field doubled
(rates and the missing flag unchanged). -/
def doubleModelCost (mc : ModelCost) : ModelCost :=
  { mc with
    input_tokens := 2 * mc.input_tokens
    output_tokens := 2 * mc.output_tokens
    cost_input := 2 * mc.cost_input
    cost_output := 2 * mc.cost_output
    cost_total := 2 * mc.cost_total }

/-! ## Helper lemmas -/

theorem dictInsert_fresh (d : List (String × Option Payload)) (k : String) (v : Option Payload)
    (h : ∀ p ∈ d, p.1 ≠ k) : dictInsert d k v = d ++ [(k, v)] := by
  have ha : d.any (fun p => p.1 == k) = false := by
    rw [List.any_eq_false]
    intro p hp
    simpa using h p hp
  simp [dictInsert, ha]

theorem qmp_fold (o : String → GatherOut) :
    ∀ (ms : List String) (acc : List (String × Option Payload)),
      ms.Nodup → (∀ m ∈ ms, ∀ p ∈ acc, p.1 ≠ m) →
      ((ms.zip (ms.map o)).foldl
        (fun result mr =>
          match mr.2 with
          | GatherOut.exc => dictInsert result mr.1 none
          | GatherOut.resp r => dictInsert result mr.1 r) acc)
        = acc ++ ms.map (fun m => (m, gatherValue (o m))) := by
  intro ms
  induction ms with
  | nil => intro acc _ _; simp
  | cons m t ih =>
    intro acc hnd hfresh
    have hmfresh : ∀ p ∈ acc, p.1 ≠ m := fun p hp => hfresh m (by simp) p hp
    have hins : dictInsert acc m (gatherValue (o m)) = acc ++ [(m, gatherValue (o m))] :=
      dictInsert_fresh _ _ _ hmfresh
    simp only [List.map_cons, List.zip_cons_cons, List.foldl_cons]
    have hstep :
        (match (m, o m).2 with
          | GatherOut.exc => dictInsert acc m none
          | GatherOut.resp r => dictInsert acc m r)
        = acc ++ [(m, gatherValue (o m))] := by
      cases h : o m <;> simp [gatherValue, h, dictInsert_fresh _ _ _ hmfresh]
    rw [hstep]
    have ht : (acc ++ [(m, gatherValue (o m))]) ++ t.map (fun x => (x, gatherValue (o x)))
        = acc ++ (m :: t).map (fun x => (x, gatherValue (o x))) := by
      simp
    have hfresh2 : ∀ m' ∈ t, ∀ p ∈ acc ++ [(m, gatherValue (o m))], p.1 ≠ m' := by
      intro m' hm' p hp
      rcases List.mem_append.mp hp with hp | hp
      · exact hfresh m' (by simp [hm']) p hp
      · simp only [List.mem_singleton] at hp
        subst hp
        intro he
        exact (List.nodup_cons.mp hnd).1 (by rw [show m = m' from he]; exact hm')
    rw [ih (acc ++ [(m, gatherValue (o m))]) (List.Nodup.of_cons hnd) hfresh2, ht]
    simp

theorem qmp_eq_map (models : List String) (o : String → GatherOut) (hnd : models.Nodup) :
    query_models_parallel models o = models.map (fun m => (m, gatherValue (o m))) := by
  unfold query_models_parallel
  simpa using qmp_fold o models [] hnd (by simp)

theorem lookup_map_self (f : String → Option Payload) :
    ∀ (ms : List String) (m : String), m ∈ ms →
      (ms.map (fun x => (x, f x))).lookup m = some (f m) := by
  intro ms
  induction ms with
  | nil => simp
  | cons a t ih =>
    intro m hm
    by_cases h : m = a
    · subst h
      simp [List.lookup]
    · have hmt : m ∈ t := by
        rcases List.mem_cons.mp hm with h1 | h1
        · exact absurd h1 h
        · exact h1
      simp [List.lookup_cons, beq_eq_false_iff_ne.mpr h, ih m hmt]

theorem countP_isSome_add_isNone (o : String → GatherOut) (ms : List String) :
    ms.countP (fun m => (gatherValue (o m)).isSome)
      + ms.countP (fun m => (gatherValue (o m)).isNone) = ms.length := by
  induction ms with
  | nil => simp
  | cons a t ih => cases h : gatherValue (o a) <;> simp [List.countP_cons, h] <;> omega

/-! ## Claim theorems -/

/-- C1: for distinct members and any outcome assignment with `k` failures,
`query_models_parallel` returns a mapping whose key list is exactly the
input member list, with exactly `N − k` successful entries, every failed
member mapped to `None`, and every member's entry determined by its own
outcome alone. -/
theorem query_models_parallel_isolates_failures (models : List String)
    (outcome : String → GatherOut) (hnd : models.Nodup) :
    (query_models_parallel models outcome).map Prod.fst = models ∧
    (query_models_parallel models outcome).countP (fun p => p.2.isSome) =
      models.length - models.countP (fun m => (gatherValue (outcome m)).isNone) ∧
    (∀ m ∈ models, (gatherValue (outcome m)).isNone = true →
      (query_models_parallel models outcome).lookup m = some none) ∧
    (∀ m ∈ models, (query_models_parallel models outcome).lookup m =
      some (gatherValue (outcome m))) := by
  have hmap := qmp_eq_map models outcome hnd
  refine ⟨?_, ?_, ?_, ?_⟩
  · rw [hmap]
    have e : (Prod.fst ∘ fun m : String => (m, gatherValue (outcome m))) = id := rfl
    simp [e]
  · rw [hmap, List.countP_map]
    have hsum := countP_isSome_add_isNone outcome models
    have e : ((fun p : String × Option Payload => p.2.isSome)
        ∘ fun m => (m, gatherValue (outcome m))) =
        fun m => (gatherValue (outcome m)).isSome := rfl
    rw [e]
    omega
  · intro m hm hnone
    rw [hmap, lookup_map_self _ _ _ hm]
    simp [Option.isNone_iff_eq_none.mp hnone]
  · intro m hm
    rw [hmap, lookup_map_self _ _ _ hm]

/-- C1 witness: three distinct members, one throwing, evaluated concretely. -/
theorem query_models_parallel_isolates_failures_witness :
    (["alpha", "beta", "gamma"] : List String).Nodup ∧
    (query_models_parallel ["alpha", "beta", "gamma"]
      (fun m => if m == "beta" then GatherOut.exc
        else GatherOut.resp (some ⟨some "hi", none⟩))).map Prod.fst
      = ["alpha", "beta", "gamma"] :=
  ⟨by decide, (query_models_parallel_isolates_failures _ _ (by decide)).1⟩

/-- C2: `query_model` never propagates an exception — on prior
disconnection, network error, non-2xx status or malformed payload it
returns `none` instead of raising. -/
theorem query_model_never_raises (env : QueryEnv)
    (h : env.disconnected = true ∨ env.net = Except.error () ∨
      ∃ r, env.net = Except.ok r ∧ (r.status_error = true ∨ r.parse = Except.error ())) :
    query_model env = none := by
  unfold query_model query_model_body
  by_cases d : env.disconnected
  · simp [d]
  · simp only [d, Bool.false_eq_true, if_false]
    rcases h with h | h | ⟨r, hr, h⟩
    · exact absurd h d
    · rw [h]
    · rw [hr]
      rcases h with h | h
      · simp [h]
      · by_cases s : r.status_error
        · simp [s]
        · simp [s, h]

/-- C2 witness: a network error maps to `none`. -/
theorem query_model_never_raises_witness :
    (QueryEnv.mk false (Except.error ())).net = Except.error () ∧
    query_model (QueryEnv.mk false (Except.error ())) = none :=
  ⟨rfl, query_model_never_raises _ (Or.inr (Or.inl rfl))⟩

/-- C3: when disconnection is detected at the check right after
`stage1_complete` is emitted, no `stage2_start` or later event is
emitted, no assistant message is written to the store, and no Gateway
call beyond stage 1 (and the earlier title task) is issued. -/
theorem cancel_after_stage1_complete_halts (env : StreamEnv)
    (h0 : env.discStart = false) (h1 : env.addUser = Outcome.ok)
    (h2 : env.discS1 = false) (h3 : env.stage1 = Outcome.ok)
    (h4 : env.discS2 = true) :
    (event_generator env).events = [Ev.stage1_start, Ev.stage1_complete] ∧
    Ev.stage2_start ∉ (event_generator env).events ∧
    (event_generator env).assistantWrite = false ∧
    (event_generator env).gatewayCalls =
      (if env.isFirst then ["title", "stage1"] else ["stage1"]) ∧
    "stage2" ∉ (event_generator env).gatewayCalls ∧
    "stage3" ∉ (event_generator env).gatewayCalls := by
  obtain ⟨ds, au, fi, d1, s1, d2, s2, d3, s3, ta, aa⟩ := env
  dsimp only at h0 h1 h2 h3 h4
  subst h0 h1 h2 h3 h4
  cases fi <;> simp [event_generator]

/-- C3 witness: the cancellation scenario evaluated concretely. -/
theorem cancel_after_stage1_complete_halts_witness :
    (event_generator ⟨false, Outcome.ok, false, false, Outcome.ok, true, Outcome.ok,
      false, Outcome.ok, Outcome.ok, Outcome.ok⟩).events
      = [Ev.stage1_start, Ev.stage1_complete] :=
  (cancel_after_stage1_complete_halts _ rfl rfl rfl rfl rfl).1

/-- C4: over every environment, the emitted events are a prefix of the
canonical order (optionally followed by one final `error` event and
with `title_complete` only for a first message), `stage2_complete`
always carries the aggregate metadata, and nothing follows an error or
a cancellation. -/
theorem event_sequence_ordered :
    ∀ (ds : Bool) (au : Outcome) (fi : Bool) (d1 : Bool) (s1 : Outcome) (d2 : Bool)
      (s2 : Outcome) (d3 : Bool) (s3 : Outcome) (ta aa : Outcome),
      orderOk (event_generator ⟨ds, au, fi, d1, s1, d2, s2, d3, s3, ta, aa⟩).events = true ∧
      Ev.stage2_complete false ∉
        (event_generator ⟨ds, au, fi, d1, s1, d2, s2, d3, s3, ta, aa⟩).events := by
  intro ds au fi d1 s1 d2 s2 d3 s3 ta aa
  cases ds with
  | true => exact ⟨rfl, of_decide_eq_false rfl⟩
  | false =>
    cases au with
    | exn => exact ⟨rfl, of_decide_eq_false rfl⟩
    | cancelled => exact ⟨rfl, of_decide_eq_false rfl⟩
    | ok =>
      cases fi with
      | true =>
        cases d1 with
        | true => exact ⟨rfl, of_decide_eq_false rfl⟩
        | false =>
          cases s1 with
          | exn => exact ⟨rfl, of_decide_eq_false rfl⟩
          | cancelled => exact ⟨rfl, of_decide_eq_false rfl⟩
          | ok =>
            cases d2 with
            | true => exact ⟨rfl, of_decide_eq_false rfl⟩
            | false =>
              cases s2 with
              | exn => exact ⟨rfl, of_decide_eq_false rfl⟩
              | cancelled => exact ⟨rfl, of_decide_eq_false rfl⟩
              | ok =>
                cases d3 with
                | true => exact ⟨rfl, of_decide_eq_false rfl⟩
                | false =>
                  cases s3 with
                  | exn => exact ⟨rfl, of_decide_eq_false rfl⟩
                  | cancelled => exact ⟨rfl, of_decide_eq_false rfl⟩
                  | ok =>
                    cases ta with
                    | exn => exact ⟨rfl, of_decide_eq_false rfl⟩
                    | cancelled => exact ⟨rfl, of_decide_eq_false rfl⟩
                    | ok =>
                      cases aa with
                      | exn => exact ⟨rfl, of_decide_eq_false rfl⟩
                      | cancelled => exact ⟨rfl, of_decide_eq_false rfl⟩
                      | ok => exact ⟨rfl, of_decide_eq_false rfl⟩
      | false =>
        cases d1 with
        | true => exact ⟨rfl, of_decide_eq_false rfl⟩
        | false =>
          cases s1 with
          | exn => exact ⟨rfl, of_decide_eq_false rfl⟩
          | cancelled => exact ⟨rfl, of_decide_eq_false rfl⟩
          | ok =>
            cases d2 with
            | true => exact ⟨rfl, of_decide_eq_false rfl⟩
            | false =>
              cases s2 with
              | exn => exact ⟨rfl, of_decide_eq_false rfl⟩
              | cancelled => exact ⟨rfl, of_decide_eq_false rfl⟩
              | ok =>
                cases d3 with
                | true => exact ⟨rfl, of_decide_eq_false rfl⟩
                | false =>
                  cases s3 with
                  | exn => exact ⟨rfl, of_decide_eq_false rfl⟩
                  | cancelled => exact ⟨rfl, of_decide_eq_false rfl⟩
                  | ok =>
                    cases aa with
                    | exn => exact ⟨rfl, of_decide_eq_false rfl⟩
                    | cancelled => exact ⟨rfl, of_decide_eq_false rfl⟩
                    | ok => exact ⟨rfl, of_decide_eq_false rfl⟩

theorem pmax_eq_left (a b : ℚ) (h : b ≤ a) : pmax a b = a := by
  unfold pmax
  split
  · next hab => exact le_antisymm h hab
  · rfl

theorem cptDivisor_pos (a : Option (List (String × ℚ))) : 0 < cptDivisor a := by
  unfold cptDivisor pmax
  split
  · norm_num
  · next h =>
    push_neg at h
    linarith

theorem ceil_two_mul_of_exact (x : ℚ) (h : (⌈x⌉ : ℚ) = x) : ⌈2 * x⌉ = 2 * ⌈x⌉ := by
  have h2 : (2 : ℚ) * x = ((2 * ⌈x⌉ : ℤ) : ℚ) := by
    push_cast
    rw [h]
  rw [h2, Int.ceil_intCast]

section FieldDefs

variable (c : ℤ) (models : List String) (chair : String)
  (pricing : List (String × PricingEntry)) (a : Option (List (String × ℚ)))

theorem ece_base_def :
    (estimate_council_cost c models chair pricing a).base_tokens =
    pmax ((tokens_from_chars c (pget (councilParams a) "chars_per_token" 0) : ℤ) : ℚ)
      (minTok a "min_stage1_tokens") := rfl

theorem ece_s1in_def :
    (estimate_council_cost c models chair pricing a).stage1_input_tokens_per_model =
    (estimate_council_cost c models chair pricing a).base_tokens := rfl

theorem ece_s1out_def :
    (estimate_council_cost c models chair pricing a).stage1_output_tokens_per_model =
    pmax ((⌈(estimate_council_cost c models chair pricing a).base_tokens * ratio1 a⌉ : ℤ) : ℚ)
      ((pyInt (minTok a "min_stage1_tokens" * (1/2)) : ℤ) : ℚ) := rfl

theorem ece_s2in_def :
    (estimate_council_cost c models chair pricing a).stage2_input_tokens_per_model =
    pmax ((⌈(estimate_council_cost c models chair pricing a).base_tokens +
      (estimate_council_cost c models chair pricing a).stage1_output_tokens_per_model *
        (models.length : ℚ)⌉ : ℤ) : ℚ)
      (minTok a "min_stage2_tokens") := rfl

theorem ece_s2out_def :
    (estimate_council_cost c models chair pricing a).stage2_output_tokens_per_model =
    pmax ((⌈(estimate_council_cost c models chair pricing a).base_tokens * ratio2 a⌉ : ℤ) : ℚ)
      (minTok a "min_stage2_tokens") := rfl

theorem ece_s3in_def :
    (estimate_council_cost c models chair pricing a).stage3_input_tokens =
    pmax ((⌈(estimate_council_cost c models chair pricing a).base_tokens +
      (estimate_council_cost c models chair pricing a).stage1_output_tokens_per_model *
        (models.length : ℚ) +
      (estimate_council_cost c models chair pricing a).stage2_output_tokens_per_model *
        (models.length : ℚ)⌉ : ℤ) : ℚ)
      (minTok a "min_stage3_tokens") := rfl

theorem ece_s3out_def :
    (estimate_council_cost c models chair pricing a).stage3_output_tokens =
    pmax ((⌈(estimate_council_cost c models chair pricing a).base_tokens * ratio3 a⌉ : ℤ) : ℚ)
      (minTok a "min_stage3_tokens") := rfl

theorem ece_s1per_def :
    (estimate_council_cost c models chair pricing a).stage1_per_model =
    models.map (fun m => estimate_model_cost m
      (estimate_council_cost c models chair pricing a).stage1_input_tokens_per_model
      (estimate_council_cost c models chair pricing a).stage1_output_tokens_per_model
      pricing) := rfl

theorem ece_s2per_def :
    (estimate_council_cost c models chair pricing a).stage2_per_model =
    models.map (fun m => estimate_model_cost m
      (estimate_council_cost c models chair pricing a).stage2_input_tokens_per_model
      (estimate_council_cost c models chair pricing a).stage2_output_tokens_per_model
      pricing) := rfl

theorem ece_chair_def :
    (estimate_council_cost c models chair pricing a).chairman =
    estimate_model_cost chair
      (estimate_council_cost c models chair pricing a).stage3_input_tokens
      (estimate_council_cost c models chair pricing a).stage3_output_tokens pricing := rfl

theorem ece_s1total_def :
    (estimate_council_cost c models chair pricing a).stage1_cost_total =
    (((estimate_council_cost c models chair pricing a).stage1_per_model).map
      (fun item => item.cost_total)).sum := rfl

theorem ece_s2total_def :
    (estimate_council_cost c models chair pricing a).stage2_cost_total =
    (((estimate_council_cost c models chair pricing a).stage2_per_model).map
      (fun item => item.cost_total)).sum := rfl

theorem ece_s3total_def :
    (estimate_council_cost c models chair pricing a).stage3_cost_total =
    ((estimate_council_cost c models chair pricing a).chairman).cost_total := rfl

theorem ece_total_def :
    (estimate_council_cost c models chair pricing a).cost_total =
    (estimate_council_cost c models chair pricing a).stage1_cost_total +
    (estimate_council_cost c models chair pricing a).stage2_cost_total +
    (estimate_council_cost c models chair pricing a).stage3_cost_total := rfl

end FieldDefs

theorem estimate_model_cost_double (m : String) (i o : ℚ)
    (pricing : List (String × PricingEntry)) :
    estimate_model_cost m (2 * i) (2 * o) pricing =
    doubleModelCost (estimate_model_cost m i o pricing) := by
  unfold estimate_model_cost doubleModelCost
  simp only [ModelCost.mk.injEq, true_and, and_true]
  refine ⟨by ring, by ring, by ring⟩



theorem ceil_cast_eq_self (z : ℤ) : (⌈(z : ℚ)⌉ : ℚ) = (z : ℚ) := by
  rw [Int.ceil_intCast]

/-- C5 amended: doubling `total_chars` doubles every derived token
count, every per-model cost field, every stage cost total and the grand
total, provided the `min_*_tokens` floors are inactive, the ratio
assumptions are nonnegative, and every ceiling taken at `c` is exact
(`c / max(chars_per_token, 1e-6)` and its products with the three stage
ratios are integers) — without the exactness conditions, ceiling
rounding breaks exact linearity (see the counterexample). -/
theorem cost_doubles_when_exact (c : ℤ) (models : List String) (chair : String)
    (pricing : List (String × PricingEntry)) (a : Option (List (String × ℚ)))
    (hc : 0 < c)
    (hbex : (⌈(c : ℚ) / cptDivisor a⌉ : ℚ) = (c : ℚ) / cptDivisor a)
    (hr1 : 0 ≤ ratio1 a) (hr2 : 0 ≤ ratio2 a) (hr3 : 0 ≤ ratio3 a)
    (h1ex : (⌈((c : ℚ) / cptDivisor a) * ratio1 a⌉ : ℚ) = ((c : ℚ) / cptDivisor a) * ratio1 a)
    (h2ex : (⌈((c : ℚ) / cptDivisor a) * ratio2 a⌉ : ℚ) = ((c : ℚ) / cptDivisor a) * ratio2 a)
    (h3ex : (⌈((c : ℚ) / cptDivisor a) * ratio3 a⌉ : ℚ) = ((c : ℚ) / cptDivisor a) * ratio3 a)
    (hm1 : minTok a "min_stage1_tokens" ≤ (c : ℚ) / cptDivisor a)
    (hm1o : ((pyInt (minTok a "min_stage1_tokens" * (1/2)) : ℤ) : ℚ) ≤
      ((c : ℚ) / cptDivisor a) * ratio1 a)
    (hm2i : minTok a "min_stage2_tokens" ≤
      (c : ℚ) / cptDivisor a + ((c : ℚ) / cptDivisor a) * ratio1 a * (models.length : ℚ))
    (hm2o : minTok a "min_stage2_tokens" ≤ ((c : ℚ) / cptDivisor a) * ratio2 a)
    (hm3i : minTok a "min_stage3_tokens" ≤
      (c : ℚ) / cptDivisor a + ((c : ℚ) / cptDivisor a) * ratio1 a * (models.length : ℚ)
        + ((c : ℚ) / cptDivisor a) * ratio2 a * (models.length : ℚ))
    (hm3o : minTok a "min_stage3_tokens" ≤ ((c : ℚ) / cptDivisor a) * ratio3 a) :
    (estimate_council_cost (2 * c) models chair pricing a).base_tokens =
      2 * (estimate_council_cost c models chair pricing a).base_tokens ∧
    (estimate_council_cost (2 * c) models chair pricing a).stage1_input_tokens_per_model =
      2 * (estimate_council_cost c models chair pricing a).stage1_input_tokens_per_model ∧
    (estimate_council_cost (2 * c) models chair pricing a).stage1_output_tokens_per_model =
      2 * (estimate_council_cost c models chair pricing a).stage1_output_tokens_per_model ∧
    (estimate_council_cost (2 * c) models chair pricing a).stage2_input_tokens_per_model =
      2 * (estimate_council_cost c models chair pricing a).stage2_input_tokens_per_model ∧
    (estimate_council_cost (2 * c) models chair pricing a).stage2_output_tokens_per_model =
      2 * (estimate_council_cost c models chair pricing a).stage2_output_tokens_per_model ∧
    (estimate_council_cost (2 * c) models chair pricing a).stage3_input_tokens =
      2 * (estimate_council_cost c models chair pricing a).stage3_input_tokens ∧
    (estimate_council_cost (2 * c) models chair pricing a).stage3_output_tokens =
      2 * (estimate_council_cost c models chair pricing a).stage3_output_tokens ∧
    (estimate_council_cost (2 * c) models chair pricing a).stage1_per_model =
      ((estimate_council_cost c models chair pricing a).stage1_per_model).map doubleModelCost ∧
    (estimate_council_cost (2 * c) models chair pricing a).stage2_per_model =
      ((estimate_council_cost c models chair pricing a).stage2_per_model).map doubleModelCost ∧
    (estimate_council_cost (2 * c) models chair pricing a).chairman =
      doubleModelCost (estimate_council_cost c models chair pricing a).chairman ∧
    (estimate_council_cost (2 * c) models chair pricing a).stage1_cost_total =
      2 * (estimate_council_cost c models chair pricing a).stage1_cost_total ∧
    (estimate_council_cost (2 * c) models chair pricing a).stage2_cost_total =
      2 * (estimate_council_cost c models chair pricing a).stage2_cost_total ∧
    (estimate_council_cost (2 * c) models chair pricing a).stage3_cost_total =
      2 * (estimate_council_cost c models chair pricing a).stage3_cost_total ∧
    (estimate_council_cost (2 * c) models chair pricing a).cost_total =
      2 * (estimate_council_cost c models chair pricing a).cost_total := by
  have hd := cptDivisor_pos a
  have hb0 : 0 < (c : ℚ) / cptDivisor a := div_pos (by exact_mod_cast hc) hd
  have hr1b : 0 ≤ ((c : ℚ) / cptDivisor a) * ratio1 a := mul_nonneg hb0.le hr1
  have hr2b : 0 ≤ ((c : ℚ) / cptDivisor a) * ratio2 a := mul_nonneg hb0.le hr2
  have hr3b : 0 ≤ ((c : ℚ) / cptDivisor a) * ratio3 a := mul_nonneg hb0.le hr3
  have hlen : (0 : ℚ) ≤ (models.length : ℚ) := by positivity
  -- the doubled character count divides to twice the base
  have hb2 : ((2 * c : ℤ) : ℚ) / cptDivisor a = 2 * ((c : ℚ) / cptDivisor a) := by
    push_cast
    ring
  -- raw token count at c and at 2c
  have ht1 : ((tokens_from_chars c (pget (councilParams a) "chars_per_token" 0) : ℤ) : ℚ)
      = ((⌈(c : ℚ) / cptDivisor a⌉ : ℤ) : ℚ) := by
    unfold tokens_from_chars cptDivisor
    rw [if_neg (by omega)]
  have ht2 : ((tokens_from_chars (2 * c) (pget (councilParams a) "chars_per_token" 0) : ℤ) : ℚ)
      = ((⌈((2 * c : ℤ) : ℚ) / cptDivisor a⌉ : ℤ) : ℚ) := by
    unfold tokens_from_chars cptDivisor
    rw [if_neg (by omega)]
  have hbex2 : (⌈((2 * c : ℤ) : ℚ) / cptDivisor a⌉ : ℚ) = 2 * ((c : ℚ) / cptDivisor a) := by
    rw [hb2, ceil_two_mul_of_exact _ hbex]
    push_cast
    rw [hbex]
  -- base tokens
  have HbC : (estimate_council_cost c models chair pricing a).base_tokens =
      (c : ℚ) / cptDivisor a := by
    rw [ece_base_def, ht1, hbex]
    exact pmax_eq_left _ _ hm1
  have HbE : (estimate_council_cost (2 * c) models chair pricing a).base_tokens =
      2 * ((c : ℚ) / cptDivisor a) := by
    rw [ece_base_def, ht2, hbex2]
    exact pmax_eq_left _ _ (by linarith)
  -- stage-1 output tokens
  have h1ex2 : (⌈2 * ((c : ℚ) / cptDivisor a) * ratio1 a⌉ : ℚ)
      = 2 * (((c : ℚ) / cptDivisor a) * ratio1 a) := by
    rw [mul_assoc, ceil_two_mul_of_exact _ h1ex]
    push_cast
    rw [h1ex]
  have Hs1oC : (estimate_council_cost c models chair pricing a).stage1_output_tokens_per_model
      = ((c : ℚ) / cptDivisor a) * ratio1 a := by
    rw [ece_s1out_def, HbC, h1ex]
    exact pmax_eq_left _ _ hm1o
  have Hs1oE : (estimate_council_cost (2 * c) models chair pricing a).stage1_output_tokens_per_model
      = 2 * (((c : ℚ) / cptDivisor a) * ratio1 a) := by
    rw [ece_s1out_def, HbE, h1ex2]
    exact pmax_eq_left _ _ (by linarith)
  -- stage-2 output tokens
  have h2ex2 : (⌈2 * ((c : ℚ) / cptDivisor a) * ratio2 a⌉ : ℚ)
      = 2 * (((c : ℚ) / cptDivisor a) * ratio2 a) := by
    rw [mul_assoc, ceil_two_mul_of_exact _ h2ex]
    push_cast
    rw [h2ex]
  have Hs2oC : (estimate_council_cost c models chair pricing a).stage2_output_tokens_per_model
      = ((c : ℚ) / cptDivisor a) * ratio2 a := by
    rw [ece_s2out_def, HbC, h2ex]
    exact pmax_eq_left _ _ hm2o
  have Hs2oE : (estimate_council_cost (2 * c) models chair pricing a).stage2_output_tokens_per_model
      = 2 * (((c : ℚ) / cptDivisor a) * ratio2 a) := by
    rw [ece_s2out_def, HbE, h2ex2]
    exact pmax_eq_left _ _ (by linarith)
  -- stage-3 output tokens
  have h3ex2 : (⌈2 * ((c : ℚ) / cptDivisor a) * ratio3 a⌉ : ℚ)
      = 2 * (((c : ℚ) / cptDivisor a) * ratio3 a) := by
    rw [mul_assoc, ceil_two_mul_of_exact _ h3ex]
    push_cast
    rw [h3ex]
  have Hs3oC : (estimate_council_cost c models chair pricing a).stage3_output_tokens
      = ((c : ℚ) / cptDivisor a) * ratio3 a := by
    rw [ece_s3out_def, HbC, h3ex]
    exact pmax_eq_left _ _ hm3o
  have Hs3oE : (estimate_council_cost (2 * c) models chair pricing a).stage3_output_tokens
      = 2 * (((c : ℚ) / cptDivisor a) * ratio3 a) := by
    rw [ece_s3out_def, HbE, h3ex2]
    exact pmax_eq_left _ _ (by linarith)
  -- stage-2 input tokens (the inner sums are integer-valued, so their ceilings vanish)
  have hsum1 : (⌈(c : ℚ) / cptDivisor a +
      ((c : ℚ) / cptDivisor a) * ratio1 a * (models.length : ℚ)⌉ : ℚ)
      = (c : ℚ) / cptDivisor a + ((c : ℚ) / cptDivisor a) * ratio1 a * (models.length : ℚ) := by
    have hz : (c : ℚ) / cptDivisor a + ((c : ℚ) / cptDivisor a) * ratio1 a * (models.length : ℚ)
        = ((⌈(c : ℚ) / cptDivisor a⌉ + ⌈((c : ℚ) / cptDivisor a) * ratio1 a⌉
            * (models.length : ℤ) : ℤ) : ℚ) := by
      push_cast
      rw [hbex, h1ex]
    rw [hz]
    exact ceil_cast_eq_self _
  have hsum2 : (⌈2 * ((c : ℚ) / cptDivisor a) +
      2 * (((c : ℚ) / cptDivisor a) * ratio1 a) * (models.length : ℚ)⌉ : ℚ)
      = 2 * ((c : ℚ) / cptDivisor a)
        + 2 * (((c : ℚ) / cptDivisor a) * ratio1 a) * (models.length : ℚ) := by
    have hz : 2 * ((c : ℚ) / cptDivisor a)
        + 2 * (((c : ℚ) / cptDivisor a) * ratio1 a) * (models.length : ℚ)
        = ((2 * ⌈(c : ℚ) / cptDivisor a⌉ + 2 * ⌈((c : ℚ) / cptDivisor a) * ratio1 a⌉
            * (models.length : ℤ) : ℤ) : ℚ) := by
      push_cast
      rw [hbex, h1ex]
    rw [hz]
    exact ceil_cast_eq_self _
  have Hs2iC : (estimate_council_cost c models chair pricing a).stage2_input_tokens_per_model
      = (c : ℚ) / cptDivisor a + ((c : ℚ) / cptDivisor a) * ratio1 a * (models.length : ℚ) := by
    rw [ece_s2in_def, HbC, Hs1oC, hsum1]
    exact pmax_eq_left _ _ hm2i
  have Hs2iE : (estimate_council_cost (2 * c) models chair pricing a).stage2_input_tokens_per_model
      = 2 * ((c : ℚ) / cptDivisor a)
        + 2 * (((c : ℚ) / cptDivisor a) * ratio1 a) * (models.length : ℚ) := by
    rw [ece_s2in_def, HbE, Hs1oE, hsum2]
    refine pmax_eq_left _ _ ?_
    have hx : ((c : ℚ) / cptDivisor a) * ratio1 a * (models.length : ℚ) ≤
        2 * (((c : ℚ) / cptDivisor a) * ratio1 a) * (models.length : ℚ) := by
      have := mul_le_mul_of_nonneg_right (by linarith [hr1b] :
        ((c : ℚ) / cptDivisor a) * ratio1 a ≤ 2 * (((c : ℚ) / cptDivisor a) * ratio1 a)) hlen
      linarith [this]
    linarith
  -- stage-3 input tokens
  have hsum3 : (⌈(c : ℚ) / cptDivisor a +
      ((c : ℚ) / cptDivisor a) * ratio1 a * (models.length : ℚ) +
      ((c : ℚ) / cptDivisor a) * ratio2 a * (models.length : ℚ)⌉ : ℚ)
      = (c : ℚ) / cptDivisor a + ((c : ℚ) / cptDivisor a) * ratio1 a * (models.length : ℚ)
        + ((c : ℚ) / cptDivisor a) * ratio2 a * (models.length : ℚ) := by
    have hz : (c : ℚ) / cptDivisor a + ((c : ℚ) / cptDivisor a) * ratio1 a * (models.length : ℚ)
        + ((c : ℚ) / cptDivisor a) * ratio2 a * (models.length : ℚ)
        = ((⌈(c : ℚ) / cptDivisor a⌉ + ⌈((c : ℚ) / cptDivisor a) * ratio1 a⌉
            * (models.length : ℤ) + ⌈((c : ℚ) / cptDivisor a) * ratio2 a⌉
            * (models.length : ℤ) : ℤ) : ℚ) := by
      push_cast
      rw [hbex, h1ex, h2ex]
    rw [hz]
    exact ceil_cast_eq_self _
  have hsum4 : (⌈2 * ((c : ℚ) / cptDivisor a) +
      2 * (((c : ℚ) / cptDivisor a) * ratio1 a) * (models.length : ℚ) +
      2 * (((c : ℚ) / cptDivisor a) * ratio2 a) * (models.length : ℚ)⌉ : ℚ)
      = 2 * ((c : ℚ) / cptDivisor a)
        + 2 * (((c : ℚ) / cptDivisor a) * ratio1 a) * (models.length : ℚ)
        + 2 * (((c : ℚ) / cptDivisor a) * ratio2 a) * (models.length : ℚ) := by
    have hz : 2 * ((c : ℚ) / cptDivisor a)
        + 2 * (((c : ℚ) / cptDivisor a) * ratio1 a) * (models.length : ℚ)
        + 2 * (((c : ℚ) / cptDivisor a) * ratio2 a) * (models.length : ℚ)
        = ((2 * ⌈(c : ℚ) / cptDivisor a⌉ + 2 * ⌈((c : ℚ) / cptDivisor a) * ratio1 a⌉
            * (models.length : ℤ) + 2 * ⌈((c : ℚ) / cptDivisor a) * ratio2 a⌉
            * (models.length : ℤ) : ℤ) : ℚ) := by
      push_cast
      rw [hbex, h1ex, h2ex]
    rw [hz]
    exact ceil_cast_eq_self _
  have Hs3iC : (estimate_council_cost c models chair pricing a).stage3_input_tokens
      = (c : ℚ) / cptDivisor a + ((c : ℚ) / cptDivisor a) * ratio1 a * (models.length : ℚ)
        + ((c : ℚ) / cptDivisor a) * ratio2 a * (models.length : ℚ) := by
    rw [ece_s3in_def, HbC, Hs1oC, Hs2oC, hsum3]
    exact pmax_eq_left _ _ hm3i
  have Hs3iE : (estimate_council_cost (2 * c) models chair pricing a).stage3_input_tokens
      = 2 * ((c : ℚ) / cptDivisor a)
        + 2 * (((c : ℚ) / cptDivisor a) * ratio1 a) * (models.length : ℚ)
        + 2 * (((c : ℚ) / cptDivisor a) * ratio2 a) * (models.length : ℚ) := by
    rw [ece_s3in_def, HbE, Hs1oE, Hs2oE, hsum4]
    refine pmax_eq_left _ _ ?_
    have hx1 : ((c : ℚ) / cptDivisor a) * ratio1 a * (models.length : ℚ) ≤
        2 * (((c : ℚ) / cptDivisor a) * ratio1 a) * (models.length : ℚ) := by
      have := mul_le_mul_of_nonneg_right (by linarith [hr1b] :
        ((c : ℚ) / cptDivisor a) * ratio1 a ≤ 2 * (((c : ℚ) / cptDivisor a) * ratio1 a)) hlen
      linarith [this]
    have hx2 : ((c : ℚ) / cptDivisor a) * ratio2 a * (models.length : ℚ) ≤
        2 * (((c : ℚ) / cptDivisor a) * ratio2 a) * (models.length : ℚ) := by
      have := mul_le_mul_of_nonneg_right (by linarith [hr2b] :
        ((c : ℚ) / cptDivisor a) * ratio2 a ≤ 2 * (((c : ℚ) / cptDivisor a) * ratio2 a)) hlen
      linarith [this]
    linarith
  -- doubled per-field equalities
  have Ds1i : (estimate_council_cost (2 * c) models chair pricing a).stage1_input_tokens_per_model
      = 2 * (estimate_council_cost c models chair pricing a).stage1_input_tokens_per_model := by
    rw [ece_s1in_def, ece_s1in_def, HbE, HbC]
  have Ds1o : (estimate_council_cost (2 * c) models chair pricing a).stage1_output_tokens_per_model
      = 2 * (estimate_council_cost c models chair pricing a).stage1_output_tokens_per_model := by
    rw [Hs1oE, Hs1oC]
  have Ds2i : (estimate_council_cost (2 * c) models chair pricing a).stage2_input_tokens_per_model
      = 2 * (estimate_council_cost c models chair pricing a).stage2_input_tokens_per_model := by
    rw [Hs2iE, Hs2iC]
    ring
  have Ds2o : (estimate_council_cost (2 * c) models chair pricing a).stage2_output_tokens_per_model
      = 2 * (estimate_council_cost c models chair pricing a).stage2_output_tokens_per_model := by
    rw [Hs2oE, Hs2oC]
  have Ds3i : (estimate_council_cost (2 * c) models chair pricing a).stage3_input_tokens
      = 2 * (estimate_council_cost c models chair pricing a).stage3_input_tokens := by
    rw [Hs3iE, Hs3iC]
    ring
  have Ds3o : (estimate_council_cost (2 * c) models chair pricing a).stage3_output_tokens
      = 2 * (estimate_council_cost c models chair pricing a).stage3_output_tokens := by
    rw [Hs3oE, Hs3oC]
  -- per-model lists and chairman
  have Dper1 : (estimate_council_cost (2 * c) models chair pricing a).stage1_per_model =
      ((estimate_council_cost c models chair pricing a).stage1_per_model).map doubleModelCost := by
    rw [ece_s1per_def, ece_s1per_def, List.map_map]
    simp only [Ds1i, Ds1o, estimate_model_cost_double]
    rfl
  have Dper2 : (estimate_council_cost (2 * c) models chair pricing a).stage2_per_model =
      ((estimate_council_cost c models chair pricing a).stage2_per_model).map doubleModelCost := by
    rw [ece_s2per_def, ece_s2per_def, List.map_map]
    simp only [Ds2i, Ds2o, estimate_model_cost_double]
    rfl
  have Dchair : (estimate_council_cost (2 * c) models chair pricing a).chairman =
      doubleModelCost (estimate_council_cost c models chair pricing a).chairman := by
    rw [ece_chair_def, ece_chair_def, Ds3i, Ds3o, estimate_model_cost_double]
  -- cost totals
  have Dt1 : (estimate_council_cost (2 * c) models chair pricing a).stage1_cost_total =
      2 * (estimate_council_cost c models chair pricing a).stage1_cost_total := by
    rw [ece_s1total_def, ece_s1total_def, Dper1, List.map_map]
    have : ((fun item : ModelCost => item.cost_total) ∘ doubleModelCost)
        = fun item : ModelCost => 2 * item.cost_total := rfl
    rw [this, List.sum_map_mul_left]
  have Dt2 : (estimate_council_cost (2 * c) models chair pricing a).stage2_cost_total =
      2 * (estimate_council_cost c models chair pricing a).stage2_cost_total := by
    rw [ece_s2total_def, ece_s2total_def, Dper2, List.map_map]
    have : ((fun item : ModelCost => item.cost_total) ∘ doubleModelCost)
        = fun item : ModelCost => 2 * item.cost_total := rfl
    rw [this, List.sum_map_mul_left]
  have Dt3 : (estimate_council_cost (2 * c) models chair pricing a).stage3_cost_total =
      2 * (estimate_council_cost c models chair pricing a).stage3_cost_total := by
    rw [ece_s3total_def, ece_s3total_def, Dchair]
    rfl
  have Dtot : (estimate_council_cost (2 * c) models chair pricing a).cost_total =
      2 * (estimate_council_cost c models chair pricing a).cost_total := by
    rw [ece_total_def, ece_total_def, Dt1, Dt2, Dt3]
    ring
  exact ⟨by rw [HbE, HbC], Ds1i, Ds1o, Ds2i, Ds2o, Ds3i, Ds3o, Dper1, Dper2, Dchair,
    Dt1, Dt2, Dt3, Dtot⟩



/-- C5 counterexample: at `total_chars = 2929` under the default
configuration every minimum-token threshold is strictly inactive for
both `c` and `2c`, yet the doubled input yields 1465 base tokens, not
2·733 = 1466 — the estimator is not exactly linear in character count. -/
theorem cost_not_linear_counterexample :
    minTok none "min_stage1_tokens" <
      (estimate_council_cost 2929 COUNCIL_MODELS CHAIRMAN_MODEL MODEL_PRICING none).base_tokens ∧
    ((pyInt (minTok none "min_stage1_tokens" * (1/2)) : ℤ) : ℚ) <
      (estimate_council_cost 2929 COUNCIL_MODELS CHAIRMAN_MODEL
        MODEL_PRICING none).stage1_output_tokens_per_model ∧
    minTok none "min_stage2_tokens" <
      (estimate_council_cost 2929 COUNCIL_MODELS CHAIRMAN_MODEL
        MODEL_PRICING none).stage2_input_tokens_per_model ∧
    minTok none "min_stage2_tokens" <
      (estimate_council_cost 2929 COUNCIL_MODELS CHAIRMAN_MODEL
        MODEL_PRICING none).stage2_output_tokens_per_model ∧
    minTok none "min_stage3_tokens" <
      (estimate_council_cost 2929 COUNCIL_MODELS CHAIRMAN_MODEL
        MODEL_PRICING none).stage3_input_tokens ∧
    minTok none "min_stage3_tokens" <
      (estimate_council_cost 2929 COUNCIL_MODELS CHAIRMAN_MODEL
        MODEL_PRICING none).stage3_output_tokens ∧
    minTok none "min_stage1_tokens" <
      (estimate_council_cost 5858 COUNCIL_MODELS CHAIRMAN_MODEL MODEL_PRICING none).base_tokens ∧
    ((pyInt (minTok none "min_stage1_tokens" * (1/2)) : ℤ) : ℚ) <
      (estimate_council_cost 5858 COUNCIL_MODELS CHAIRMAN_MODEL
        MODEL_PRICING none).stage1_output_tokens_per_model ∧
    minTok none "min_stage2_tokens" <
      (estimate_council_cost 5858 COUNCIL_MODELS CHAIRMAN_MODEL
        MODEL_PRICING none).stage2_input_tokens_per_model ∧
    minTok none "min_stage2_tokens" <
      (estimate_council_cost 5858 COUNCIL_MODELS CHAIRMAN_MODEL
        MODEL_PRICING none).stage2_output_tokens_per_model ∧
    minTok none "min_stage3_tokens" <
      (estimate_council_cost 5858 COUNCIL_MODELS CHAIRMAN_MODEL
        MODEL_PRICING none).stage3_input_tokens ∧
    minTok none "min_stage3_tokens" <
      (estimate_council_cost 5858 COUNCIL_MODELS CHAIRMAN_MODEL
        MODEL_PRICING none).stage3_output_tokens ∧
    (estimate_council_cost 5858 COUNCIL_MODELS CHAIRMAN_MODEL MODEL_PRICING none).base_tokens ≠
      2 * (estimate_council_cost 2929 COUNCIL_MODELS CHAIRMAN_MODEL
        MODEL_PRICING none).base_tokens := by
  decide

/-- C5 witness: `total_chars = 2960` (base 740, a multiple of 20) makes
every ceiling exact and every floor inactive, so the estimate at 5920
doubles the one at 2960. -/
theorem cost_doubles_when_exact_witness :
    (0 : ℤ) < 2960 ∧
    (estimate_council_cost (2 * 2960) COUNCIL_MODELS CHAIRMAN_MODEL
      MODEL_PRICING none).base_tokens
      = 2 * (estimate_council_cost 2960 COUNCIL_MODELS CHAIRMAN_MODEL
        MODEL_PRICING none).base_tokens :=
  ⟨by decide, (cost_doubles_when_exact 2960 COUNCIL_MODELS CHAIRMAN_MODEL MODEL_PRICING none
    (by decide) (by decide) (by decide) (by decide) (by decide) (by decide) (by decide)
    (by decide) (by decide) (by decide) (by decide) (by decide) (by decide) (by decide)).1⟩

/-- C6 counterexample: with `total_chars = 0` under the default
assumptions, the stage-3 output estimate is 410, not the configured
`min_stage3_tokens = 256`, so not every derived token count falls back
to its configured minimum. -/
theorem zero_chars_not_all_minimum :
    (estimate_council_cost 0 COUNCIL_MODELS CHAIRMAN_MODEL MODEL_PRICING none).stage3_output_tokens
      = 410 ∧
    pget DEFAULT_ASSUMPTIONS "min_stage3_tokens" 0 = 256 ∧ (410 : ℚ) ≠ 256 := by decide

/-- C6 amended: with `total_chars = 0` under the default assumptions the
base and stage-1 input counts fall back to `min_stage1_tokens`, the
stage-2 output count to `min_stage2_tokens`, and every derived token
count is positive (none is zero). -/
theorem zero_chars_token_floors :
    (estimate_council_cost 0 COUNCIL_MODELS CHAIRMAN_MODEL MODEL_PRICING none).base_tokens
      = 512 ∧
    (estimate_council_cost 0 COUNCIL_MODELS CHAIRMAN_MODEL
      MODEL_PRICING none).stage1_input_tokens_per_model = 512 ∧
    (estimate_council_cost 0 COUNCIL_MODELS CHAIRMAN_MODEL
      MODEL_PRICING none).stage2_output_tokens_per_model = 256 ∧
    0 < (estimate_council_cost 0 COUNCIL_MODELS CHAIRMAN_MODEL
      MODEL_PRICING none).base_tokens ∧
    0 < (estimate_council_cost 0 COUNCIL_MODELS CHAIRMAN_MODEL
      MODEL_PRICING none).stage1_output_tokens_per_model ∧
    0 < (estimate_council_cost 0 COUNCIL_MODELS CHAIRMAN_MODEL
      MODEL_PRICING none).stage2_input_tokens_per_model ∧
    0 < (estimate_council_cost 0 COUNCIL_MODELS CHAIRMAN_MODEL
      MODEL_PRICING none).stage3_input_tokens ∧
    0 < (estimate_council_cost 0 COUNCIL_MODELS CHAIRMAN_MODEL
      MODEL_PRICING none).stage3_output_tokens := by
  decide

/-- C7: the `stage*_output_multiplier` overrides accepted by the
estimate-cost endpoint have no effect — the estimate with all three
multipliers supplied equals the default estimate in every computed
field, differing only in the echoed parameter dictionary.  This holds
because `DEFAULT_ASSUMPTIONS` always supplies `stage*_output_ratio`, so
the backward-compat fallback of lines 62–64 is dead code. -/
theorem output_multiplier_override_ignored (c : ℤ) (models : List String)
    (chair : String) (pricing : List (String × PricingEntry)) (v1 v2 v3 : ℚ) :
    estimate_council_cost c models chair pricing
      (some ([("stage1_output_multiplier", v1), ("stage2_output_multiplier", v2),
              ("stage3_output_multiplier", v3)] ++ DEFAULT_ASSUMPTIONS)) =
    { estimate_council_cost c models chair pricing none with
      params := councilParams
        (some ([("stage1_output_multiplier", v1), ("stage2_output_multiplier", v2),
                ("stage3_output_multiplier", v3)] ++ DEFAULT_ASSUMPTIONS)) } := rfl

/-- C9: `tokens_from_chars` is total, never divides by zero (the divisor
is positive for every `chars_per_token`, including zero and negatives),
returns `0` for non-positive counts and a positive ceiling otherwise,
so its result is always a non-negative integer. -/
theorem tokens_from_chars_total_nonneg (char_count : ℤ) (chars_per_token : ℚ) :
    0 ≤ tokens_from_chars char_count chars_per_token ∧
    (char_count ≤ 0 → tokens_from_chars char_count chars_per_token = 0) ∧
    (0 < char_count →
      0 < pmax chars_per_token (1/1000000) ∧
      tokens_from_chars char_count chars_per_token =
        ⌈(char_count : ℚ) / pmax chars_per_token (1/1000000)⌉ ∧
      1 ≤ tokens_from_chars char_count chars_per_token) := by
  have hd : 0 < pmax chars_per_token (1/1000000) := by
    unfold pmax
    split
    · norm_num
    · next h =>
      push_neg at h
      linarith
  by_cases hc : char_count ≤ 0
  · refine ⟨by simp [tokens_from_chars, hc], fun _ => by simp [tokens_from_chars, hc],
      fun h => absurd h (by omega)⟩
  · push_neg at hc
    have hq : 0 < (char_count : ℚ) / pmax chars_per_token (1/1000000) :=
      div_pos (by exact_mod_cast hc) hd
    have hceil : 0 < ⌈(char_count : ℚ) / pmax chars_per_token (1/1000000)⌉ :=
      Int.ceil_pos.mpr hq
    have heq : tokens_from_chars char_count chars_per_token =
        ⌈(char_count : ℚ) / pmax chars_per_token (1/1000000)⌉ := by
      simp [tokens_from_chars, not_le.mpr hc]
    refine ⟨by rw [heq]; omega, fun h => absurd h (by omega),
      fun _ => ⟨hd, heq, by rw [heq]; omega⟩⟩

/-- C9 witness: `chars_per_token = 0` still yields a positive count for
a positive character count. -/
theorem tokens_from_chars_total_nonneg_witness :
    (0 < (3:ℤ)) ∧ 1 ≤ tokens_from_chars 3 0 :=
  ⟨by norm_num, ((tokens_from_chars_total_nonneg 3 0).2.2 (by norm_num)).2.2⟩

/-- C10: a model absent from the pricing table, or with both rates
missing/zero, contributes zero cost and is flagged `pricing_missing`. -/
theorem estimate_model_cost_unknown_model_zero (model_id : String) (i o : ℚ)
    (pricing : List (String × PricingEntry))
    (h : pricing.lookup model_id = none ∨
      ∃ e, pricing.lookup model_id = some e ∧
        (e.input_per_million = none ∨ e.input_per_million = some 0) ∧
        (e.output_per_million = none ∨ e.output_per_million = some 0)) :
    (estimate_model_cost model_id i o pricing).cost_input = 0 ∧
    (estimate_model_cost model_id i o pricing).cost_output = 0 ∧
    (estimate_model_cost model_id i o pricing).cost_total = 0 ∧
    (estimate_model_cost model_id i o pricing).pricing_missing = true := by
  rcases h with h | ⟨e, he, hi, ho⟩
  · simp [estimate_model_cost, h]
  · rcases hi with hi | hi <;> rcases ho with ho | ho <;>
      simp [estimate_model_cost, he, hi, ho]

/-- C10 witness: a model unknown to the configured pricing table. -/
theorem estimate_model_cost_unknown_model_zero_witness :
    MODEL_PRICING.lookup "mystery/model" = none ∧
    (estimate_model_cost "mystery/model" 5 7 MODEL_PRICING).cost_total = 0 ∧
    (estimate_model_cost "mystery/model" 5 7 MODEL_PRICING).pricing_missing = true :=
  ⟨by decide,
   (estimate_model_cost_unknown_model_zero "mystery/model" 5 7 MODEL_PRICING
     (Or.inl (by decide))).2.2.1,
   (estimate_model_cost_unknown_model_zero "mystery/model" 5 7 MODEL_PRICING
     (Or.inl (by decide))).2.2.2⟩

theorem enumFrom_map_snd (n : ℕ) (l : List String) : (enumFrom n l).map Prod.snd = l := by
  induction l generalizing n with
  | nil => rfl
  | cons a t ih => simp [enumFrom, ih]

theorem snd_mem_of_mem_enumFrom {n : ℕ} {l : List String} {p : ℕ × String}
    (hp : p ∈ enumFrom n l) : p.2 ∈ l := by
  have h := List.mem_map_of_mem Prod.snd hp
  rwa [enumFrom_map_snd] at h

theorem fst_le_of_mem_enumFrom {l : List String} :
    ∀ {n : ℕ} {p : ℕ × String}, p ∈ enumFrom n l → n ≤ p.1 := by
  induction l with
  | nil => intro n p hp; simp [enumFrom] at hp
  | cons a t ih =>
    intro n p hp
    rcases List.mem_cons.mp hp with rfl | hp
    · exact le_refl n
    · exact le_trans (by omega) (ih hp)

theorem pairwise_fst_enumFrom (l : List String) :
    ∀ n : ℕ, (enumFrom n l).Pairwise (fun p q => p.1 < q.1) := by
  induction l with
  | nil => intro n; simp [enumFrom]
  | cons a t ih =>
    intro n
    refine List.Pairwise.cons ?_ (ih (n + 1))
    intro q hq
    have := fst_le_of_mem_enumFrom hq
    omega

theorem indexOf_enumFrom (l : List String) (hnd : l.Nodup) :
    ∀ (n : ℕ) (p : ℕ × String), p ∈ enumFrom n l → l.indexOf p.2 + n = p.1 := by
  induction l with
  | nil => intro n p hp; simp [enumFrom] at hp
  | cons a t ih =>
    intro n p hp
    rcases List.mem_cons.mp hp with rfl | hp
    · simp
    · have hmem : p.2 ∈ t := snd_mem_of_mem_enumFrom hp
      have hne : p.2 ≠ a := fun he => (List.nodup_cons.mp hnd).1 (he ▸ hmem)
      have := ih (List.Nodup.of_cons hnd) (n + 1) p hp
      rw [List.indexOf_cons_ne _ (Ne.symm hne)]
      omega

theorem lookup_some_mem {l : List (String × String)} {k v : String}
    (h : l.lookup k = some v) : ∃ q, (q, v) ∈ l := by
  induction l with
  | nil => simp [List.lookup] at h
  | cons a t ih =>
    rw [List.lookup] at h
    cases hb : (k == a.1)
    · rw [hb] at h
      obtain ⟨q, hq⟩ := ih h
      exact ⟨q, List.mem_cons_of_mem _ hq⟩
    · rw [hb] at h
      simp only [Option.some_inj] at h
      refine ⟨a.1, ?_⟩
      rw [← h]
      simp

theorem labelScore_nonneg (labels : List String) (l2m : List (String × String)) (m : String) :
    0 ≤ labelScore labels l2m m := by
  refine List.sum_nonneg ?_
  intro x hx
  obtain ⟨p, _, rfl⟩ := List.mem_map.mp hx
  split
  · positivity
  · exact le_refl 0

theorem memberScore_nonneg (rankings : List Ranking) (l2m : List (String × String)) (m : String) :
    0 ≤ memberScore rankings l2m m := by
  refine List.sum_nonneg ?_
  intro x hx
  obtain ⟨r, _, rfl⟩ := List.mem_map.mp hx
  exact labelScore_nonneg _ _ _

theorem memberScore_eq_zero_of_unmentioned (rankings : List Ranking)
    (l2m : List (String × String)) (m : String)
    (h : mentioned rankings l2m m = false) : memberScore rankings l2m m = 0 := by
  unfold mentioned at h
  rw [List.any_eq_false] at h
  refine List.sum_eq_zero ?_
  intro x hx
  obtain ⟨r, hr, rfl⟩ := List.mem_map.mp hx
  refine List.sum_eq_zero ?_
  intro y hy
  obtain ⟨p, hp, rfl⟩ := List.mem_map.mp hy
  have h2 := h r hr
  rw [Bool.not_eq_true, List.any_eq_false] at h2
  have h3 := h2 p.2 (snd_mem_of_mem_enumFrom hp)
  rw [Bool.not_eq_true] at h3
  rw [if_neg]
  rw [h3]
  exact Bool.false_ne_true

theorem memberScore_eq_zero_of_failed (rankings : List Ranking)
    (l2m : List (String × String)) (success : String → Bool) (m : String)
    (hfail : ∀ p ∈ l2m, success p.2 = true) (hm : success m = false) :
    memberScore rankings l2m m = 0 := by
  refine memberScore_eq_zero_of_unmentioned rankings l2m m ?_
  cases hmen : mentioned rankings l2m m
  · rfl
  · exfalso
    unfold mentioned at hmen
    rw [List.any_eq_true] at hmen
    obtain ⟨r, _, hr⟩ := hmen
    rw [List.any_eq_true] at hr
    obtain ⟨lab, _, hlab⟩ := hr
    have hl : l2m.lookup lab = some m := by simpa using hlab
    obtain ⟨q, hq⟩ := lookup_some_mem hl
    have := hfail (q, m) hq
    simp only at this
    rw [hm] at this
    exact Bool.false_ne_true this



theorem aggRel_total (score : String → ℚ) (p q : ℕ × String) :
    aggRel score p q ∨ aggRel score q p := by
  rcases lt_trichotomy (score p.2) (score q.2) with h | h | h
  · exact Or.inr (Or.inl h)
  · rcases le_total p.1 q.1 with hle | hle
    · exact Or.inl (Or.inr ⟨h, hle⟩)
    · exact Or.inr (Or.inr ⟨h.symm, hle⟩)
  · exact Or.inl (Or.inl h)

theorem aggRel_trans (score : String → ℚ) (p q r : ℕ × String)
    (h1 : aggRel score p q) (h2 : aggRel score q r) : aggRel score p r := by
  rcases h1 with h1 | ⟨h1e, h1i⟩
  · rcases h2 with h2 | ⟨h2e, _⟩
    · exact Or.inl (lt_trans h2 h1)
    · exact Or.inl (h2e ▸ h1)
  · rcases h2 with h2 | ⟨h2e, h2i⟩
    · exact Or.inl (by rw [h1e]; exact h2)
    · exact Or.inr ⟨h1e.trans h2e, le_trans h1i h2i⟩

/-- C8: the spec-modelled Aggregation Engine is total, deterministic and
strictly ordered.  For a non-empty duplicate-free member list (and a
label mapping that only names members with successful Drafts), the
output lists every member exactly once (a permutation of the input),
pairs each with its aggregate score, is strictly sorted by descending
score with ties broken by Stage-1 dispatch order, scores are never
negative with unmentioned and failed members scored exactly 0 (the
minimum), and every zero-scored member sorts after every positively
scored one. -/
theorem aggregate_strict_total_order (rankings : List Ranking)
    (l2m : List (String × String)) (members : List String) (success : String → Bool)
    (hne : members ≠ []) (hnd : members.Nodup)
    (hfail : ∀ p ∈ l2m, success p.2 = true) :
    ((calculate_aggregate_rankings rankings l2m members).map Prod.fst).Perm members ∧
    calculate_aggregate_rankings rankings l2m members ≠ [] ∧
    (∀ p ∈ calculate_aggregate_rankings rankings l2m members,
      p.2 = memberScore rankings l2m p.1) ∧
    (calculate_aggregate_rankings rankings l2m members).Pairwise
      (fun x y => y.2 < x.2 ∨ (x.2 = y.2 ∧ members.indexOf x.1 < members.indexOf y.1)) ∧
    (∀ m, 0 ≤ memberScore rankings l2m m) ∧
    (∀ m, mentioned rankings l2m m = false → memberScore rankings l2m m = 0) ∧
    (∀ m, success m = false → memberScore rankings l2m m = 0) ∧
    (calculate_aggregate_rankings rankings l2m members).Pairwise
      (fun x y => 0 < y.2 → 0 < x.2) := by
  letI : IsTotal (ℕ × String) (aggRel (memberScore rankings l2m)) :=
    ⟨aggRel_total (memberScore rankings l2m)⟩
  letI : IsTrans (ℕ × String) (aggRel (memberScore rankings l2m)) :=
    ⟨fun p q r => aggRel_trans (memberScore rankings l2m) p q r⟩
  have hout : calculate_aggregate_rankings rankings l2m members =
      (List.insertionSort (aggRel (memberScore rankings l2m)) (enumFrom 0 members)).map
        (fun p => (p.2, memberScore rankings l2m p.2)) := rfl
  have hperm : (List.insertionSort (aggRel (memberScore rankings l2m))
      (enumFrom 0 members)).Perm (enumFrom 0 members) :=
    List.perm_insertionSort _ _
  have hsorted : (List.insertionSort (aggRel (memberScore rankings l2m))
      (enumFrom 0 members)).Sorted (aggRel (memberScore rankings l2m)) :=
    List.sorted_insertionSort _ _
  have hennodup : ((enumFrom 0 members).map Prod.fst).Nodup := by
    rw [List.Nodup, List.pairwise_map]
    exact (pairwise_fst_enumFrom members 0).imp (fun h => Nat.ne_of_lt h)
  have hfstnodup : ((List.insertionSort (aggRel (memberScore rankings l2m))
      (enumFrom 0 members)).map Prod.fst).Nodup :=
    ((hperm.map Prod.fst).nodup_iff).mpr hennodup
  have hpairdiff : (List.insertionSort (aggRel (memberScore rankings l2m))
      (enumFrom 0 members)).Pairwise (fun p q => p.1 ≠ q.1) :=
    List.pairwise_map.mp hfstnodup
  have hidx : ∀ p ∈ List.insertionSort (aggRel (memberScore rankings l2m))
      (enumFrom 0 members), members.indexOf p.2 = p.1 := by
    intro p hp
    have := indexOf_enumFrom members hnd 0 p (hperm.mem_iff.mp hp)
    omega
  have hstrict : (List.insertionSort (aggRel (memberScore rankings l2m))
      (enumFrom 0 members)).Pairwise
      (fun p q => memberScore rankings l2m q.2 < memberScore rankings l2m p.2 ∨
        (memberScore rankings l2m p.2 = memberScore rankings l2m q.2 ∧
          members.indexOf p.2 < members.indexOf q.2)) := by
    have hand := hsorted.and hpairdiff
    refine hand.imp_of_mem ?_
    intro p q hp hq hpq
    rcases hpq with ⟨hr | ⟨he, hi⟩, hne2⟩
    · exact Or.inl hr
    · refine Or.inr ⟨he, ?_⟩
      rw [hidx p hp, hidx q hq]
      omega
  have hlen : (enumFrom 0 members).length = members.length := by
    have := congrArg List.length (enumFrom_map_snd 0 members)
    simpa using this
  refine ⟨?_, ?_, ?_, ?_, ?_, ?_, ?_, ?_⟩
  · rw [hout, List.map_map]
    have he : ((Prod.fst ∘ fun p : ℕ × String => (p.2, memberScore rankings l2m p.2)))
        = Prod.snd := rfl
    rw [he]
    have := hperm.map Prod.snd
    rwa [enumFrom_map_snd] at this
  · rw [hout]
    intro hcon
    have h0 := congrArg List.length hcon
    rw [List.length_map, hperm.length_eq, hlen] at h0
    simp at h0
    exact hne h0
  · rw [hout]
    intro p hp
    obtain ⟨q, _, rfl⟩ := List.mem_map.mp hp
    rfl
  · rw [hout]
    rw [List.pairwise_map]
    exact hstrict
  · exact fun m => memberScore_nonneg rankings l2m m
  · exact fun m => memberScore_eq_zero_of_unmentioned rankings l2m m
  · exact fun m => memberScore_eq_zero_of_failed rankings l2m success m hfail
  · rw [hout, List.pairwise_map]
    refine hstrict.imp ?_
    intro p q hpq h0
    rcases hpq with hr | ⟨he, _⟩
    · exact lt_trans h0 hr
    · rw [he]
      exact h0

/-- C8 witness: three members, member `c` with a failed Draft, one
ranking `[L1, L2]` de-anonymizing to `b` then `a`. -/
theorem aggregate_strict_total_order_witness :
    (["a", "b", "c"] : List String) ≠ [] ∧
    (["a", "b", "c"] : List String).Nodup ∧
    ((calculate_aggregate_rankings [⟨"ranker", ["L1", "L2"]⟩]
      [("L1", "b"), ("L2", "a")] ["a", "b", "c"]).map Prod.fst).Perm ["a", "b", "c"] :=
  ⟨by decide, by decide,
   (aggregate_strict_total_order [⟨"ranker", ["L1", "L2"]⟩] [("L1", "b"), ("L2", "a")]
     ["a", "b", "c"] (fun m => !(m == "c")) (by decide) (by decide) (by decide)).1⟩

end LLMCouncil
